import Mathlib

/-!
Shallow embedding of `folly/lang/Exception.cpp`: the `exception_ptr`
introspection functions `exception_ptr_get_type` and
`exception_ptr_get_object`, for each of the three supported runtime
families (libstdc++ / glibcxx, libc++ / libcxxabi, win32 / msvc crt).

Modelling conventions:
- `TypeDesc` (an opaque `std::type_info` identity) is `Nat`; comparing two
  descriptors with `=` models `std::type_info::operator==` (exact identity).
- `Ptr` (a raw data pointer) is `Int`, so pointer arithmetic (header
  offsets, image-base-relative offsets) is integer arithmetic.
- A captured handle is `Option` of the family-specific representation:
  `none` models a null `std::exception_ptr` / null record.
- External runtime facilities (the `__do_catch` / `can_catch` predicates,
  `DecodePointer`, `__AdjustPointer`, memory reads of runtime-owned
  structures) are fields of a family `Env` structure: they are imports in
  the source, not code of this repository.
- The win32 decoder's probe cache (`static std::atomic<int> cache`) is
  threaded explicitly as an `Int` state (0 uninit, -1 plain, +1 encoded);
  the `assert(value)` on the environment-detection-failure path is
  modelled as `Except.error ()`, i.e. termination of the process.
-/

namespace Folly

/-- Opaque identity of a `std::type_info`, comparable for exact equality. -/
abbrev TypeDesc := Nat

/-- A raw data pointer, as an integer address. -/
abbrev Ptr := Int

/-! ## Family A: libstdc++ (glibcxx)

```
std::type_info const* exception_ptr_get_type(std::exception_ptr const& ptr) {
  return !ptr ? nullptr : ptr.__cxa_exception_type();
}
void* exception_ptr_get_object(std::exception_ptr const& ptr,
                               std::type_info const* const target) {
  if (!ptr) { return nullptr; }
  auto object = reinterpret_cast<void* const&>(ptr);
  auto type = ptr.__cxa_exception_type();
  return !target || target->__do_catch(type, &object, 1) ? object : nullptr;
}
```
A non-null `exception_ptr` stores the exception-object pointer
(`reinterpret_cast<void* const&>(ptr)`), so a handle is `Option Ptr`.
-/

namespace Glibcxx

/-- External libstdc++ facilities used by the glibcxx decoder. -/
structure Env where
  /-- `std::exception_ptr::__cxa_exception_type()`: the stored descriptor,
  as a function of the stored object pointer. -/
  cxa_exception_type : Ptr → TypeDesc
  /-- `std::type_info::__do_catch(thrown_type, &object, 1)`: called on the
  target descriptor; returns whether the thrown type is catchable as the
  target and the (possibly adjusted, via `void**`) object pointer. -/
  do_catch : TypeDesc → TypeDesc → Ptr → Bool × Ptr

/-- `folly::exception_ptr_get_type`, glibcxx family. -/
def exception_ptr_get_type (env : Env) : Option Ptr → Option TypeDesc
  | none => none
  | some object => some (env.cxa_exception_type object)

/-- `folly::exception_ptr_get_object`, glibcxx family. -/
def exception_ptr_get_object (env : Env) (ptr : Option Ptr)
    (target : Option TypeDesc) : Option Ptr :=
  match ptr with
  | none => none
  | some object =>
    let type := env.cxa_exception_type object
    match target with
    | none => some object
    | some t =>
      let r := env.do_catch t type object
      if r.1 then some r.2 else none

end Glibcxx

/-! ## Family B: libc++ (libcxxabi)

The handle stores a pointer to the exception object; the
`__cxa_exception` header sits immediately before it in memory
(`static_cast<__cxa_exception*>(object) - 1`).
-/

namespace Libcpp

/-- `__cxxabiv1::__cxa_exception` (the `__LP64__` / `_WIN64` shape: leading
`reserve` and `referenceCount`, no trailing reference count; the
`_LIBCXXABI_ARM_EHABI` variant differs only in bookkeeping fields this
code never reads). Pointer- and function-pointer-valued bookkeeping
fields are modelled as raw addresses. -/
structure CxaException where
  reserve : Ptr
  referenceCount : Nat
  exceptionType : TypeDesc
  exceptionDestructor : Ptr
  unexpectedHandler : Ptr
  terminateHandler : Ptr
  nextException : Ptr
  handlerCount : Int
  handlerSwitchValue : Int
  actionRecord : Ptr
  languageSpecificData : Ptr
  catchTemp : Ptr
  adjustedPtr : Ptr
  unwindHeader : Int

/-- External libc++ facilities used by the libc++ decoder. -/
structure Env where
  /-- `sizeof(__cxa_exception)`: the byte distance between the header and
  the exception object (`- 1` on a `__cxa_exception*`). -/
  sizeofCxaException : Int
  /-- Memory read of a `__cxa_exception` at a given address. -/
  readCxaException : Int → CxaException
  /-- `__shim_type_info::can_catch(thrown_type, adjustedPtr)`: called on
  the target descriptor; returns whether the thrown type is catchable and
  the (possibly adjusted, via `void*&`) object pointer. -/
  can_catch : TypeDesc → TypeDesc → Ptr → Bool × Ptr

/-- `cxxabi_get_object`: `reinterpret_cast<void* const&>(ptr)`, the stored
exception-object pointer of a non-null handle. -/
def cxxabi_get_object (object : Ptr) : Ptr := object

/-- `folly::exception_ptr_get_type`, libc++ family: locate the
`__cxa_exception` header one header-size before the object and read its
`exceptionType` field. -/
def exception_ptr_get_type (env : Env) : Option Ptr → Option TypeDesc
  | none => none
  | some objectPtr =>
    let object := cxxabi_get_object objectPtr
    let exception := env.readCxaException (object - env.sizeofCxaException)
    some exception.exceptionType

/-- `folly::exception_ptr_get_object`, libc++ family. -/
def exception_ptr_get_object (env : Env) (ptr : Option Ptr)
    (target : Option TypeDesc) : Option Ptr :=
  match ptr with
  | none => none
  | some objectPtr =>
    let object := cxxabi_get_object objectPtr
    let type := (env.readCxaException (object - env.sizeofCxaException)).exceptionType
    match target with
    | none => some object
    | some t =>
      let r := env.can_catch t type object
      if r.1 then some r.2 else none

end Libcpp

/-! ## Family C: win32 (msvc crt)

The handle is a `shared_ptr<EHExceptionRecord>`; a null record models an
empty handle. The record's throw-info pointer may be stored encoded
(obfuscated); `win32_eptr_throw_info_ptr_is_encoded` probes this once and
caches the outcome in a process-wide `std::atomic<int>`
(0 uninit, -1 false, +1 true), threaded here as an explicit `Int` state.
-/

namespace Win32

/-- `PMD`: a member displacement (member offset, pointer-to-base-table
offset, vbase-table-entry offset), consumed opaquely by `__AdjustPointer`. -/
structure PMD where
  mdisp : Int
  pdisp : Int
  vdisp : Int

/-- `CatchableType`: only the fields this code reads (`pType`, the
image-base-relative type-descriptor offset, and `thisDisplacement`, the
subobject displacement); the other `ehdata.h` fields are never accessed. -/
structure CatchableType where
  pType : Int
  thisDisplacement : PMD

/-- `CatchableTypeArray`: a count and the flexible array of
image-base-relative `CatchableType` offsets, modelled as a total function
from index (memory beyond `nCatchableTypes` entries holds junk, as in C). -/
structure CatchableTypeArray where
  nCatchableTypes : Int
  arrayOfCatchableTypes : Nat → Int

/-- `ThrowInfo`: only `pCatchableTypeArray` (image-base-relative offset of
the catchable type array) is read by this code. -/
structure ThrowInfo where
  pCatchableTypeArray : Int

/-- `EHExceptionRecord::EHParameters`: the fields this code reads. -/
structure EHParameters where
  pThrowInfo : Int
  pThrowImageBase : Int
  pExceptionObject : Ptr

/-- `EHExceptionRecord` as used here: its exception parameters. -/
structure EHExceptionRecord where
  params : EHParameters

/-- External msvc crt facilities and build-time constants used by the
win32 decoder. -/
structure Env where
  /-- `DecodePointer` (via `win32_decode_pointer`). -/
  decodePointer : Int → Int
  /-- Memory read of a `ThrowInfo` at an address. -/
  throwInfoAt : Int → ThrowInfo
  /-- Memory read of a `CatchableTypeArray` at an address. -/
  ctaAt : Int → CatchableTypeArray
  /-- Memory read of a `CatchableType` at an address. -/
  ctAt : Int → CatchableType
  /-- Memory read of a `TypeDescriptor` (as `std::type_info` identity). -/
  tdAt : Int → TypeDesc
  /-- `__AdjustPointer(object, pmd)`: subobject displacement application. -/
  adjustPointer : Ptr → PMD → Ptr
  /-- The `_EH_RELATIVE_TYPEINFO` build-time flag. -/
  ehRelativeTypeinfo : Bool
  /-- `__GetExceptionInfo(0)`: address of the compiler-emitted throw-info
  for an `int`-typed sentinel exception. -/
  getExceptionInfoInt : Int
  /-- The `EHExceptionRecord` behind `std::make_exception_ptr(0)`: the
  sentinel capture the probe inspects. -/
  makeExceptionPtrIntRecord : EHExceptionRecord

/-- `win32_decode_pointer`: `DecodePointer` with casts. -/
def win32_decode_pointer (env : Env) (p : Int) : Int :=
  env.decodePointer p

/-- `win32_eptr_throw_info_ptr_is_encoded`: the obfuscation probe. The
cache (`static std::atomic<int>`, 0 uninit / -1 false / +1 true) is passed
in and the possibly-updated cache is returned. A non-zero cache is
returned as-is (`if (auto value = cache.load(relaxed)) return value > 0;`).
Otherwise the probe captures an `int` sentinel and compares the record's
stored throw-info pointer against the compiler-emitted throw-info address
and against its `DecodePointer` image, in that order, the second
comparison overwriting the first. `assert(value)` on the
neither-comparison-succeeded path is modelled as `Except.error ()`:
the process terminates before any store to the cache. -/
def win32_eptr_throw_info_ptr_is_encoded (env : Env) (cache : Int) :
    Except Unit (Bool × Int) :=
  if cache ≠ 0 then
    .ok (decide (0 < cache), cache)
  else
    let info := env.getExceptionInfoInt
    let r := env.makeExceptionPtrIntRecord
    let value : Int := 0
    let value := if info = r.params.pThrowInfo then -1 else value
    let value := if info = win32_decode_pointer env r.params.pThrowInfo then 1 else value
    if value = 0 then .error ()
    else .ok (decide (0 < value), value)

/-- `win32_throw_info`: resolve the record's throw-info pointer through
the probe's decoding decision; returns the `ThrowInfo*` address. -/
def win32_throw_info (env : Env) (r : EHExceptionRecord) (cache : Int) :
    Except Unit (Int × Int) :=
  match win32_eptr_throw_info_ptr_is_encoded env cache with
  | .error e => .error e
  | .ok (encoded, cache') =>
    let info := r.params.pThrowInfo
    .ok (if encoded then win32_decode_pointer env info else info, cache')

/-- `win32_throw_image_base`: the throw image base under
`_EH_RELATIVE_TYPEINFO`, else `0`. -/
def win32_throw_image_base (env : Env) (r : EHExceptionRecord) : Int :=
  if env.ehRelativeTypeinfo then r.params.pThrowImageBase else 0

/-- `folly::exception_ptr_get_type`, win32 family: null if the record is
null; else resolve throw-info, read catchable-type entry 0 (the compiler
emits the most-derived type first) and return its type descriptor. -/
def exception_ptr_get_type (env : Env) :
    Option EHExceptionRecord → Int → Except Unit (Option TypeDesc × Int)
  | none, cache => .ok (none, cache)
  | some r, cache =>
    match win32_throw_info env r cache with
    | .error e => .error e
    | .ok (infoAddr, cache') =>
      let base := win32_throw_image_base env r
      let info := env.throwInfoAt infoAddr
      let cta := env.ctaAt (base + info.pCatchableTypeArray)
      let ct := env.ctAt (base + cta.arrayOfCatchableTypes 0)
      let td := env.tdAt (base + ct.pType)
      .ok (some td, cache')

/-- The `for (int i = 0; i < cta->nCatchableTypes; i++)` scan of
`exception_ptr_get_object`: starting at index `i` with `fuel` iterations
left, return the `__AdjustPointer`-adjusted object at the first entry
whose type descriptor equals `target`, else `none`. -/
def win32_scan (env : Env) (base : Int) (cta : CatchableTypeArray)
    (target : TypeDesc) (object : Ptr) : Nat → Nat → Option Ptr
  | _, 0 => none
  | i, fuel + 1 =>
    let ct := env.ctAt (base + cta.arrayOfCatchableTypes i)
    let td := env.tdAt (base + ct.pType)
    if target = td then some (env.adjustPointer object ct.thisDisplacement)
    else win32_scan env base cta target object (i + 1) fuel

/-- `folly::exception_ptr_get_object`, win32 family: null if the record is
null; the raw `pExceptionObject` if `target` is null; else resolve
throw-info and scan the catchable type array for an exact descriptor
match, adjusting by that entry's `thisDisplacement`. -/
def exception_ptr_get_object (env : Env) :
    Option EHExceptionRecord → Option TypeDesc → Int →
      Except Unit (Option Ptr × Int)
  | none, _, cache => .ok (none, cache)
  | some r, none, cache => .ok (some r.params.pExceptionObject, cache)
  | some r, some t, cache =>
    let object := r.params.pExceptionObject
    match win32_throw_info env r cache with
    | .error e => .error e
    | .ok (infoAddr, cache') =>
      let base := win32_throw_image_base env r
      let info := env.throwInfoAt infoAddr
      let cta := env.ctaAt (base + info.pCatchableTypeArray)
      .ok (win32_scan env base cta t object 0 cta.nCatchableTypes.toNat, cache')

/-- A sequence of `n` consecutive probe invocations threading the cache:
`none` if any invocation hits the fatal path, else the list of returned
booleans and the final cache value. -/
def probeIter (env : Env) : Int → Nat → Option (List Bool × Int)
  | cache, 0 => some ([], cache)
  | cache, n + 1 =>
    match win32_eptr_throw_info_ptr_is_encoded env cache with
    | .error _ => none
    | .ok (b, cache') =>
      match probeIter env cache' n with
      | none => none
      | some (bs, cacheFinal) => some (b :: bs, cacheFinal)

end Win32

/-! ## Concrete example environments, for concrete evaluations -/

/-- A concrete glibcxx environment: every captured error has descriptor 4,
and the runtime's `__do_catch` accepts exactly an identical target,
adjusting the object pointer by one. -/
def egGlibcxxEnv : Glibcxx.Env where
  cxa_exception_type := fun _ => 4
  do_catch := fun t ty object => (t == ty, object + 1)

/-- A concrete `__cxa_exception` header with `exceptionType = 9`. -/
def egCxa : Libcpp.CxaException where
  reserve := 0
  referenceCount := 1
  exceptionType := 9
  exceptionDestructor := 0
  unexpectedHandler := 0
  terminateHandler := 0
  nextException := 0
  handlerCount := 0
  handlerSwitchValue := 0
  actionRecord := 0
  languageSpecificData := 0
  catchTemp := 0
  adjustedPtr := 0
  unwindHeader := 0

/-- A concrete libc++ environment: every header read yields `egCxa`, and
`can_catch` accepts exactly an identical target, adjusting by two. -/
def egLibcppEnv : Libcpp.Env where
  sizeofCxaException := 160
  readCxaException := fun _ => egCxa
  can_catch := fun t ty object => (t == ty, object + 2)

/-- A concrete win32 environment in which `DecodePointer` is the identity,
so both probe comparisons succeed on the sentinel (stored throw-info `5`,
emitted throw-info `5`). The single throw-info points at a two-entry
catchable type array with descriptors `50` and `51` and member
displacements `20` and `21`. -/
def egWin32Env : Win32.Env where
  decodePointer := fun p => p
  throwInfoAt := fun _ => ⟨10⟩
  ctaAt := fun _ => ⟨2, fun i => 20 + (i : Int)⟩
  ctAt := fun a => ⟨30 + a, ⟨a, 0, 0⟩⟩
  tdAt := fun a => a.toNat
  adjustPointer := fun p d => p + d.mdisp
  ehRelativeTypeinfo := false
  getExceptionInfoInt := 5
  makeExceptionPtrIntRecord := ⟨⟨5, 0, 100⟩⟩

/-- A win32 environment in which neither probe comparison succeeds: the
emitted throw-info is `6` but the sentinel record stores `5`, and
`DecodePointer` is the identity. -/
def egWin32EnvBad : Win32.Env :=
  { egWin32Env with getExceptionInfoInt := 6 }

/-- A concrete exception record for the win32 family: stored throw-info
`5`, image base `0`, exception object at address `100`. -/
def egRec : Win32.EHExceptionRecord := ⟨⟨5, 0, 100⟩⟩

/-! ## Helper lemmas about the win32 probe and scan -/

/-- A non-zero cache is returned as-is: the probe neither recomputes nor
overwrites it. -/
theorem Win32.probe_cached (env : Win32.Env) (cache : Int) (h : cache ≠ 0) :
    Win32.win32_eptr_throw_info_ptr_is_encoded env cache =
      .ok (decide (0 < cache), cache) := by
  unfold Win32.win32_eptr_throw_info_ptr_is_encoded
  simp [h]

/-- The detection value the probe computes on first use (cache `0`): the
two sequential comparisons of the source, the second (against the decoded
pointer) overwriting the first. -/
def Win32.probeValue (env : Win32.Env) : Int :=
  if env.getExceptionInfoInt =
      Win32.win32_decode_pointer env env.makeExceptionPtrIntRecord.params.pThrowInfo
  then 1
  else if env.getExceptionInfoInt = env.makeExceptionPtrIntRecord.params.pThrowInfo
  then -1
  else 0

/-- On an uninitialized cache the probe either halts (detection value `0`)
or returns and stores the detection value. -/
theorem Win32.probe_uncached (env : Win32.Env) :
    Win32.win32_eptr_throw_info_ptr_is_encoded env 0 =
      if Win32.probeValue env = 0 then .error ()
      else .ok (decide (0 < Win32.probeValue env), Win32.probeValue env) := rfl

/-- Whatever cache value a successful probe returns, probing again from
that cache returns the same boolean and the same cache. -/
theorem Win32.probe_stable (env : Win32.Env) (cache : Int) (b : Bool)
    (c : Int) (h : Win32.win32_eptr_throw_info_ptr_is_encoded env cache = .ok (b, c)) :
    Win32.win32_eptr_throw_info_ptr_is_encoded env c = .ok (b, c) := by
  by_cases hc : cache ≠ 0
  · rw [Win32.probe_cached env cache hc] at h
    obtain ⟨hb, hcc⟩ : decide (0 < cache) = b ∧ cache = c := by simpa using h
    subst hcc
    subst hb
    exact Win32.probe_cached env cache hc
  · rw [not_not.mp hc, Win32.probe_uncached env] at h
    by_cases hv : Win32.probeValue env = 0
    · rw [if_pos hv] at h
      cases h
    · rw [if_neg hv] at h
      obtain ⟨hb, hcc⟩ : decide (0 < Win32.probeValue env) = b ∧
          Win32.probeValue env = c := by simpa using h
      subst hcc
      subst hb
      exact Win32.probe_cached env _ hv

/-- `win32_throw_info` is stable under repetition: rerunning it from the
cache state it produced yields the same address and cache. -/
theorem Win32.throw_info_stable (env : Win32.Env) (r : Win32.EHExceptionRecord)
    (cache : Int) (a c : Int)
    (h : Win32.win32_throw_info env r cache = .ok (a, c)) :
    Win32.win32_throw_info env r c = .ok (a, c) := by
  unfold Win32.win32_throw_info at h ⊢
  cases hp : Win32.win32_eptr_throw_info_ptr_is_encoded env cache with
  | error e => rw [hp] at h; cases h
  | ok bc =>
    obtain ⟨enc, c''⟩ := bc
    rw [hp] at h
    obtain ⟨ha, hcc⟩ : (if enc then Win32.win32_decode_pointer env r.params.pThrowInfo
        else r.params.pThrowInfo) = a ∧ c'' = c := by simpa using h
    subst hcc
    rw [Win32.probe_stable env cache enc _ hp]
    simpa using ha

/-- The win32 linear scan, characterized: starting at index `i` with
`fuel` entries to inspect, it returns the adjusted object pointer at the
first matching entry, i.e. `List.find?` over the mapped index range. -/
theorem Win32.win32_scan_eq_find (env : Win32.Env) (base : Int)
    (cta : Win32.CatchableTypeArray) (t : TypeDesc) (object : Ptr) :
    ∀ (fuel i : Nat),
      Win32.win32_scan env base cta t object i fuel =
        (((List.range' i fuel).map fun j =>
            env.ctAt (base + cta.arrayOfCatchableTypes j)).find? fun ct =>
            decide (t = env.tdAt (base + ct.pType))).map fun ct =>
          env.adjustPointer object ct.thisDisplacement := by
  intro fuel
  induction fuel with
  | zero =>
    intro i
    simp [Win32.win32_scan]
  | succ n ih =>
    intro i
    rw [List.range'_succ]
    simp only [List.map_cons, List.find?_cons]
    by_cases h : t = env.tdAt (base + (env.ctAt (base + cta.arrayOfCatchableTypes i)).pType)
    · simp [Win32.win32_scan, h]
    · simp [Win32.win32_scan, h, ih (i + 1)]

/-! ## The claims -/

/-- Claim C1: for every captured-error handle, in each of the three family
decoders, `get_type` returns null if and only if the handle represents no
error, and `get_object` returns null for an empty handle regardless of the
target type. (For the win32 decoder, whose `get_type` threads the probe
cache and can only halt inside the probe, the non-empty direction is
stated under the hypothesis that the probe call returns.) -/
theorem claim_C1_null_iff_empty :
    (∀ (env : Glibcxx.Env) (h : Option Ptr),
        Glibcxx.exception_ptr_get_type env h = none ↔ h = none) ∧
    (∀ (env : Glibcxx.Env) (t : Option TypeDesc),
        Glibcxx.exception_ptr_get_object env none t = none) ∧
    (∀ (env : Libcpp.Env) (h : Option Ptr),
        Libcpp.exception_ptr_get_type env h = none ↔ h = none) ∧
    (∀ (env : Libcpp.Env) (t : Option TypeDesc),
        Libcpp.exception_ptr_get_object env none t = none) ∧
    (∀ (env : Win32.Env) (cache : Int),
        Win32.exception_ptr_get_type env none cache = .ok (none, cache)) ∧
    (∀ (env : Win32.Env) (r : Win32.EHExceptionRecord) (cache : Int)
        (enc : Bool) (c' : Int),
        Win32.win32_eptr_throw_info_ptr_is_encoded env cache = .ok (enc, c') →
        ∃ td, Win32.exception_ptr_get_type env (some r) cache = .ok (some td, c')) ∧
    (∀ (env : Win32.Env) (t : Option TypeDesc) (cache : Int),
        Win32.exception_ptr_get_object env none t cache = .ok (none, cache)) := by
  refine ⟨?_, ?_, ?_, ?_, ?_, ?_, ?_⟩
  · intro env h
    cases h <;> simp [Glibcxx.exception_ptr_get_type]
  · intro env t
    rfl
  · intro env h
    cases h <;> simp [Libcpp.exception_ptr_get_type]
  · intro env t
    rfl
  · intro env cache
    rfl
  · intro env r cache enc c' hp
    simp only [Win32.exception_ptr_get_type, Win32.win32_throw_info]
    rw [hp]
    exact ⟨_, rfl⟩
  · intro env t cache
    rfl

/-- Witness for C1 at a concrete win32 environment, record and cache. -/
theorem claim_C1_witness :
    Win32.win32_eptr_throw_info_ptr_is_encoded egWin32Env 1 = .ok (true, 1) ∧
    ∃ td, Win32.exception_ptr_get_type egWin32Env (some egRec) 1 = .ok (some td, 1) :=
  ⟨rfl, claim_C1_null_iff_empty.2.2.2.2.2.1 egWin32Env egRec 1 true 1 rfl⟩

/-- Claim C3: in the obfuscation probe, if neither comparison succeeds,
the probe halts (`assert(value)` with `value = 0`, modelled as
`Except.error ()`): it neither returns a boolean nor stores anything into
the cache. -/
theorem claim_C3_probe_neither_fatal :
    ∀ (env : Win32.Env),
      env.getExceptionInfoInt ≠ env.makeExceptionPtrIntRecord.params.pThrowInfo →
      env.getExceptionInfoInt ≠
        Win32.win32_decode_pointer env env.makeExceptionPtrIntRecord.params.pThrowInfo →
      Win32.win32_eptr_throw_info_ptr_is_encoded env 0 = .error () := by
  intro env h1 h2
  have hv : Win32.probeValue env = 0 := by
    unfold Win32.probeValue
    rw [if_neg h2, if_neg h1]
  rw [Win32.probe_uncached, if_pos hv]

/-- Witness for C3 at a concrete environment where both comparisons fail. -/
theorem claim_C3_witness :
    egWin32EnvBad.getExceptionInfoInt ≠
      egWin32EnvBad.makeExceptionPtrIntRecord.params.pThrowInfo ∧
    Win32.win32_eptr_throw_info_ptr_is_encoded egWin32EnvBad 0 = .error () :=
  ⟨by decide, claim_C3_probe_neither_fatal egWin32EnvBad (by decide) (by decide)⟩

/-- Claim C4: for every non-empty handle, in each of the three family
decoders, `get_object` with a null target returns the raw stored payload
pointer unchanged — no compatibility check, no adjustment, and (win32) no
probe: the result is independent of every environment facility and the
cache is untouched. -/
theorem claim_C4_null_target_raw_pointer :
    (∀ (env : Glibcxx.Env) (object : Ptr),
        Glibcxx.exception_ptr_get_object env (some object) none = some object) ∧
    (∀ (env : Libcpp.Env) (object : Ptr),
        Libcpp.exception_ptr_get_object env (some object) none = some object) ∧
    (∀ (env : Win32.Env) (r : Win32.EHExceptionRecord) (cache : Int),
        Win32.exception_ptr_get_object env (some r) none cache =
          .ok (some r.params.pExceptionObject, cache)) :=
  ⟨fun _ _ => rfl, fun _ _ => rfl, fun _ _ _ => rfl⟩

/-- Claim C10: when both probe comparisons succeed (as when pointer
decoding is the identity on the emitted throw-info address), the second
comparison wins: the probe returns `true` (encoded) and caches `+1`. -/
theorem claim_C10_both_match_encoded :
    ∀ (env : Win32.Env),
      env.getExceptionInfoInt = env.makeExceptionPtrIntRecord.params.pThrowInfo →
      env.getExceptionInfoInt =
        Win32.win32_decode_pointer env env.makeExceptionPtrIntRecord.params.pThrowInfo →
      Win32.win32_eptr_throw_info_ptr_is_encoded env 0 = .ok (true, 1) := by
  intro env h1 h2
  have hv : Win32.probeValue env = 1 := by
    unfold Win32.probeValue
    rw [if_pos h2]
  rw [Win32.probe_uncached, hv]
  norm_num

/-- Witness for C10 at a concrete environment where both comparisons
succeed. -/
theorem claim_C10_witness :
    egWin32Env.getExceptionInfoInt =
      egWin32Env.makeExceptionPtrIntRecord.params.pThrowInfo ∧
    egWin32Env.getExceptionInfoInt =
      Win32.win32_decode_pointer egWin32Env
        egWin32Env.makeExceptionPtrIntRecord.params.pThrowInfo ∧
    Win32.win32_eptr_throw_info_ptr_is_encoded egWin32Env 0 = .ok (true, 1) :=
  ⟨rfl, rfl, claim_C10_both_match_encoded egWin32Env rfl rfl⟩

/-- Claim C2: in the win32 decoder, for a non-empty handle and non-null
target, `get_object` scans the catchable-type entries in order and at the
first entry whose descriptor equals the target by exact identity (a plain
`find?` over descriptor equality — no can-catch predicate appears) it
returns the payload adjusted (`__AdjustPointer`) by that entry's
`thisDisplacement`; with no matching entry it returns null (`find?`
yielding `none` is mapped to `none`). Stated for every probe outcome
`(enc, c')` the probe call can return. -/
theorem claim_C2_scan_exact_match :
    ∀ (env : Win32.Env) (r : Win32.EHExceptionRecord) (t : TypeDesc)
      (cache : Int) (enc : Bool) (c' : Int),
      Win32.win32_eptr_throw_info_ptr_is_encoded env cache = .ok (enc, c') →
      Win32.exception_ptr_get_object env (some r) (some t) cache =
        (let base := Win32.win32_throw_image_base env r
         let infoAddr := if enc then Win32.win32_decode_pointer env r.params.pThrowInfo
           else r.params.pThrowInfo
         let cta := env.ctaAt (base + (env.throwInfoAt infoAddr).pCatchableTypeArray)
         let entries := (List.range cta.nCatchableTypes.toNat).map fun i =>
           env.ctAt (base + cta.arrayOfCatchableTypes i)
         .ok ((entries.find? fun ct => decide (t = env.tdAt (base + ct.pType))).map
           fun ct => env.adjustPointer r.params.pExceptionObject ct.thisDisplacement, c')) := by
  intro env r t cache enc c' hp
  simp only [Win32.exception_ptr_get_object, Win32.win32_throw_info]
  rw [hp]
  simp only [Win32.win32_scan_eq_find, List.range_eq_range']

/-- Witness for C2 at a concrete environment: the target matches the
second catchable entry (descriptor 51, displacement 21), so the object at
100 is adjusted to 121. -/
theorem claim_C2_witness :
    Win32.win32_eptr_throw_info_ptr_is_encoded egWin32Env 1 = .ok (true, 1) ∧
    Win32.exception_ptr_get_object egWin32Env (some egRec) (some 51) 1 =
      .ok (some 121, 1) :=
  ⟨rfl, (claim_C2_scan_exact_match egWin32Env egRec 51 1 true 1 rfl).trans (by rfl)⟩

/-- Claim C5: in the win32 decoder, for a handle with an attached record,
`get_type` resolves the throw-info pointer through the probe's decoding
decision (`enc`), reads catchable-type entry 0 — under the
most-derived-first ordering invariant, the error's exact dynamic type —
and returns that entry's type descriptor. -/
theorem claim_C5_get_type_first_entry :
    ∀ (env : Win32.Env) (r : Win32.EHExceptionRecord) (cache : Int)
      (enc : Bool) (c' : Int),
      Win32.win32_eptr_throw_info_ptr_is_encoded env cache = .ok (enc, c') →
      Win32.exception_ptr_get_type env (some r) cache =
        (let base := Win32.win32_throw_image_base env r
         let infoAddr := if enc then Win32.win32_decode_pointer env r.params.pThrowInfo
           else r.params.pThrowInfo
         let cta := env.ctaAt (base + (env.throwInfoAt infoAddr).pCatchableTypeArray)
         let ct0 := env.ctAt (base + cta.arrayOfCatchableTypes 0)
         .ok (some (env.tdAt (base + ct0.pType)), c')) := by
  intro env r cache enc c' hp
  simp only [Win32.exception_ptr_get_type, Win32.win32_throw_info]
  rw [hp]

/-- Witness for C5 at a concrete environment: entry 0 has descriptor 50. -/
theorem claim_C5_witness :
    Win32.win32_eptr_throw_info_ptr_is_encoded egWin32Env 1 = .ok (true, 1) ∧
    Win32.exception_ptr_get_type egWin32Env (some egRec) 1 = .ok (some 50, 1) :=
  ⟨rfl, (claim_C5_get_type_first_entry egWin32Env egRec 1 true 1 rfl).trans (by rfl)⟩

/-- Claim C6: in the glibcxx and libc++ decoders, for a non-empty handle
and non-null target, `get_object` hands the target descriptor, the stored
descriptor and the raw payload pointer to the runtime's can-catch
predicate (`__do_catch` resp. `can_catch`) and returns the
predicate-adjusted pointer on compatibility, null otherwise. -/
theorem claim_C6_oracle_delegation :
    (∀ (env : Glibcxx.Env) (object : Ptr) (t : TypeDesc) (p : Ptr),
        env.do_catch t (env.cxa_exception_type object) object = (true, p) →
        Glibcxx.exception_ptr_get_object env (some object) (some t) = some p) ∧
    (∀ (env : Glibcxx.Env) (object : Ptr) (t : TypeDesc) (p : Ptr),
        env.do_catch t (env.cxa_exception_type object) object = (false, p) →
        Glibcxx.exception_ptr_get_object env (some object) (some t) = none) ∧
    (∀ (env : Libcpp.Env) (object : Ptr) (t : TypeDesc) (p : Ptr),
        env.can_catch t
            ((env.readCxaException (object - env.sizeofCxaException)).exceptionType)
            object = (true, p) →
        Libcpp.exception_ptr_get_object env (some object) (some t) = some p) ∧
    (∀ (env : Libcpp.Env) (object : Ptr) (t : TypeDesc) (p : Ptr),
        env.can_catch t
            ((env.readCxaException (object - env.sizeofCxaException)).exceptionType)
            object = (false, p) →
        Libcpp.exception_ptr_get_object env (some object) (some t) = none) := by
  refine ⟨?_, ?_, ?_, ?_⟩ <;> intro env object t p h
  · simp [Glibcxx.exception_ptr_get_object, h]
  · simp [Glibcxx.exception_ptr_get_object, h]
  · simp [Libcpp.exception_ptr_get_object, Libcpp.cxxabi_get_object, h]
  · simp [Libcpp.exception_ptr_get_object, Libcpp.cxxabi_get_object, h]

/-- Witness for C6 at concrete environments: the identical target is
accepted (adjustment +1 resp. +2), a distinct target is rejected. -/
theorem claim_C6_witness :
    egGlibcxxEnv.do_catch 4 (egGlibcxxEnv.cxa_exception_type 10) 10 = (true, 11) ∧
    Glibcxx.exception_ptr_get_object egGlibcxxEnv (some 10) (some 4) = some 11 ∧
    egLibcppEnv.can_catch 5
        ((egLibcppEnv.readCxaException (200 - egLibcppEnv.sizeofCxaException)).exceptionType)
        200 = (false, 202) ∧
    Libcpp.exception_ptr_get_object egLibcppEnv (some 200) (some 5) = none :=
  ⟨rfl, claim_C6_oracle_delegation.1 egGlibcxxEnv 10 4 11 rfl, rfl,
    claim_C6_oracle_delegation.2.2.2 egLibcppEnv 200 5 202 rfl⟩

/-- Claim C9: in the win32 decoder, for a handle with an attached record,
`get_object` with a null target returns the record's `pExceptionObject`
without resolving throw-info or invoking the probe: the cache is returned
untouched for every environment and cache state, and in particular the
call still succeeds in an environment whose probe would halt. -/
theorem claim_C9_null_target_no_probe :
    (∀ (env : Win32.Env) (r : Win32.EHExceptionRecord) (cache : Int),
        Win32.exception_ptr_get_object env (some r) none cache =
          .ok (some r.params.pExceptionObject, cache)) ∧
    (∀ (env : Win32.Env) (r : Win32.EHExceptionRecord),
        Win32.win32_eptr_throw_info_ptr_is_encoded env 0 = .error () →
        Win32.exception_ptr_get_object env (some r) none 0 =
          .ok (some r.params.pExceptionObject, 0)) :=
  ⟨fun _ _ _ => rfl, fun _ _ _ => rfl⟩

/-- Witness for C9 at the environment whose probe halts: `get_object`
with a null target still returns the payload pointer. -/
theorem claim_C9_witness :
    Win32.win32_eptr_throw_info_ptr_is_encoded egWin32EnvBad 0 = .error () ∧
    Win32.exception_ptr_get_object egWin32EnvBad (some egRec) none 0 =
      .ok (some 100, 0) :=
  ⟨rfl, (claim_C9_null_target_no_probe.2 egWin32EnvBad egRec rfl).trans (by rfl)⟩

/-- Claim C7: once the probe cache holds a non-zero value, every
subsequent probe call returns the boolean derived from that stored value
and leaves the cache unchanged (any number of iterated calls yields the
same boolean every time and the same final cache), and a first call that
races another is harmless: rerunning the probe from whatever value a
successful first call stored returns that same value — the computation is
a pure function of the environment, so all racing computations agree. -/
theorem claim_C7_probe_cache_stable :
    (∀ (env : Win32.Env) (cache : Int), cache ≠ 0 →
        Win32.win32_eptr_throw_info_ptr_is_encoded env cache =
          .ok (decide (0 < cache), cache)) ∧
    (∀ (env : Win32.Env) (cache : Int) (n : Nat), cache ≠ 0 →
        Win32.probeIter env cache n =
          some (List.replicate n (decide (0 < cache)), cache)) ∧
    (∀ (env : Win32.Env) (b : Bool) (c : Int),
        Win32.win32_eptr_throw_info_ptr_is_encoded env 0 = .ok (b, c) →
        Win32.win32_eptr_throw_info_ptr_is_encoded env c = .ok (b, c)) := by
  refine ⟨fun env cache h => Win32.probe_cached env cache h, ?_,
    fun env b c h => Win32.probe_stable env 0 b c h⟩
  intro env cache n h
  induction n with
  | zero => rfl
  | succ k ih =>
    simp [Win32.probeIter, Win32.probe_cached env cache h, ih, List.replicate_succ]

/-- Witness for C7 at a concrete environment and the cached value `1`. -/
theorem claim_C7_witness :
    (1 : Int) ≠ 0 ∧
    Win32.probeIter egWin32Env 1 3 = some ([true, true, true], 1) ∧
    Win32.win32_eptr_throw_info_ptr_is_encoded egWin32Env 0 = .ok (true, 1) ∧
    Win32.win32_eptr_throw_info_ptr_is_encoded egWin32Env 1 = .ok (true, 1) :=
  ⟨by norm_num,
    (claim_C7_probe_cache_stable.2.1 egWin32Env 1 3 (by norm_num)).trans (by rfl),
    rfl,
    claim_C7_probe_cache_stable.2.2 egWin32Env true 1 rfl⟩

/-- Claim C8: for a fixed handle and target, repeated calls return equal
results. The glibcxx and libc++ decoders are pure functions of the
environment and their arguments, so determinism is definitional; the
win32 decoders thread the probe cache, and a second call from the cache
state the first call produced returns the same result and the same
cache. -/
theorem claim_C8_repeat_deterministic :
    (∀ (env : Glibcxx.Env) (hdl : Option Ptr) (t : Option TypeDesc),
        Glibcxx.exception_ptr_get_type env hdl = Glibcxx.exception_ptr_get_type env hdl ∧
        Glibcxx.exception_ptr_get_object env hdl t =
          Glibcxx.exception_ptr_get_object env hdl t) ∧
    (∀ (env : Libcpp.Env) (hdl : Option Ptr) (t : Option TypeDesc),
        Libcpp.exception_ptr_get_type env hdl = Libcpp.exception_ptr_get_type env hdl ∧
        Libcpp.exception_ptr_get_object env hdl t =
          Libcpp.exception_ptr_get_object env hdl t) ∧
    (∀ (env : Win32.Env) (hdl : Option Win32.EHExceptionRecord) (cache : Int)
        (res : Option TypeDesc) (c' : Int),
        Win32.exception_ptr_get_type env hdl cache = .ok (res, c') →
        Win32.exception_ptr_get_type env hdl c' = .ok (res, c')) ∧
    (∀ (env : Win32.Env) (hdl : Option Win32.EHExceptionRecord)
        (t : Option TypeDesc) (cache : Int) (res : Option Ptr) (c' : Int),
        Win32.exception_ptr_get_object env hdl t cache = .ok (res, c') →
        Win32.exception_ptr_get_object env hdl t c' = .ok (res, c')) := by
  refine ⟨fun _ _ _ => ⟨rfl, rfl⟩, fun _ _ _ => ⟨rfl, rfl⟩, ?_, ?_⟩
  · intro env hdl cache res c' hcall
    cases hdl with
    | none =>
      injection hcall with h12
      injection h12 with h1 h2
      subst h2
      subst h1
      rfl
    | some r =>
      simp only [Win32.exception_ptr_get_type] at hcall ⊢
      cases hti : Win32.win32_throw_info env r cache with
      | error e =>
        rw [hti] at hcall
        cases hcall
      | ok ac =>
        obtain ⟨a, c''⟩ := ac
        rw [hti] at hcall
        injection hcall with h12
        injection h12 with h1 h2
        subst h2
        subst h1
        rw [Win32.throw_info_stable env r cache a _ hti]
  · intro env hdl t cache res c' hcall
    cases hdl with
    | none =>
      injection hcall with h12
      injection h12 with h1 h2
      subst h2
      subst h1
      rfl
    | some r =>
      cases t with
      | none =>
        injection hcall with h12
        injection h12 with h1 h2
        subst h2
        subst h1
        rfl
      | some tgt =>
        simp only [Win32.exception_ptr_get_object] at hcall ⊢
        cases hti : Win32.win32_throw_info env r cache with
        | error e =>
          rw [hti] at hcall
          cases hcall
        | ok ac =>
          obtain ⟨a, c''⟩ := ac
          rw [hti] at hcall
          injection hcall with h12
          injection h12 with h1 h2
          subst h2
          subst h1
          rw [Win32.throw_info_stable env r cache a _ hti]

/-- Witness for C8: a first win32 call from the uninitialized cache and
the repeated call from the cache it produced, for both operations. -/
theorem claim_C8_witness :
    Win32.exception_ptr_get_type egWin32Env (some egRec) 0 = .ok (some 50, 1) ∧
    Win32.exception_ptr_get_type egWin32Env (some egRec) 1 = .ok (some 50, 1) ∧
    Win32.exception_ptr_get_object egWin32Env (some egRec) (some 51) 0 =
      .ok (some 121, 1) ∧
    Win32.exception_ptr_get_object egWin32Env (some egRec) (some 51) 1 =
      .ok (some 121, 1) :=
  ⟨rfl,
    claim_C8_repeat_deterministic.2.2.1 egWin32Env (some egRec) 0 (some 50) 1 rfl,
    rfl,
    claim_C8_repeat_deterministic.2.2.2 egWin32Env (some egRec) (some 51) 0
      (some 121) 1 rfl⟩

end Folly
